import Mathlib

/-!
Verification development for the product-description platform service
(`src/main.py`): a shallow embedding of its data model, serialization,
prompt builder, generation client, snapshot store and the
create/update/delete service operations, together with theorems about
the specified behaviour.
-/

namespace ProductPlatform

/-- Model of Python `str.strip()` on the underlying character list:
remove whitespace characters from both ends. -/
def stripChars (l : List Char) : List Char :=
  ((l.dropWhile Char.isWhitespace).reverse.dropWhile Char.isWhitespace).reverse

/-- Model of Python `str.strip()` (trim whitespace at both ends).
The source only ever strips ASCII whitespace in practice. -/
def pyStrip (s : String) : String :=
  String.mk (stripChars s.data)

/-- Model of Python `x or default` for an optional string: `None` and the
empty string are falsy and select the default. -/
def pyOr (o : Option String) (d : String) : String :=
  match o with
  | none => d
  | some s => if s = "" then d else s

/-- Whether `needle` is a prefix of `hay` (character lists). -/
def listStartsWith : List Char → List Char → Bool
  | [], _ => true
  | _ :: _, [] => false
  | c :: cs, h :: hs => c == h && listStartsWith cs hs

/-- Whether `needle` occurs as a contiguous substring of `hay`. -/
def listHasSub (needle : List Char) : List Char → Bool
  | [] => needle.isEmpty
  | h :: hs => listStartsWith needle (h :: hs) || listHasSub needle hs

/-- Model of the Python membership test `needle in hay` on strings. -/
def pyContains (hay needle : String) : Bool :=
  listHasSub needle.data hay.data

/-- ASCII lowercasing of one character. -/
def lowerCh (c : Char) : Char :=
  if 'A' ≤ c ∧ c ≤ 'Z' then Char.ofNat (c.toNat + 32) else c

/-- Model of Python `str.lower()`; the substrings the source searches for
are ASCII, so ASCII lowercasing is faithful for classification. -/
def pyLower (s : String) : String := String.mk (s.data.map lowerCh)

/-! ### Decimal digits and ISO-8601 timestamps

`datetime.isoformat()` renders `YYYY-MM-DDTHH:MM:SS` with a `.ffffff`
suffix exactly when the microsecond field is nonzero; pydantic parses
that form back into a datetime when `ProductResponse(**item)` validates
a stored record. -/

/-- Character for a single decimal digit `k < 10`. -/
def digitCh (k : Nat) : Char := Char.ofNat (48 + k)

/-- Fixed-width zero-padded decimal rendering of `n`, most significant
digit first. -/
def padDigits : Nat → Nat → List Char
  | 0, _ => []
  | w + 1, n => digitCh (n / 10 ^ w) :: padDigits w (n % 10 ^ w)

/-- Read exactly `w` decimal digits, accumulating their value. -/
def takeDigitsAux : Nat → Nat → List Char → Option (Nat × List Char)
  | 0, acc, cs => some (acc, cs)
  | _ + 1, _, [] => none
  | w + 1, acc, c :: cs =>
      if c.isDigit then takeDigitsAux w (10 * acc + (c.toNat - 48)) cs else none

/-- Read exactly `w` decimal digits at the front of `cs`. -/
def takeDigits (w : Nat) (cs : List Char) : Option (Nat × List Char) :=
  takeDigitsAux w 0 cs

/-- Consume one expected character. -/
def expectCh (c : Char) : List Char → Option (List Char)
  | [] => none
  | h :: hs => if h == c then some hs else none

lemma digitCh_spec {k : Nat} (hk : k < 10) :
    (digitCh k).isDigit = true ∧ (digitCh k).toNat - 48 = k := by
  interval_cases k <;> exact ⟨by decide, by decide⟩

lemma takeDigitsAux_pad (w : Nat) : ∀ (n acc : Nat) (rest : List Char), n < 10 ^ w →
    takeDigitsAux w acc (padDigits w n ++ rest) = some (acc * 10 ^ w + n, rest) := by
  induction w with
  | zero =>
      intro n acc rest hn
      have hn0 : n = 0 := Nat.lt_one_iff.mp (by simpa using hn)
      subst hn0
      simp [padDigits, takeDigitsAux]
  | succ w ih =>
      intro n acc rest hn
      have h10 : (0 : Nat) < 10 ^ w := pow_pos (by norm_num) w
      have hq : n / 10 ^ w < 10 := by
        have hlt : n < 10 * 10 ^ w := by
          rw [pow_succ] at hn; omega
        exact (Nat.div_lt_iff_lt_mul h10).mpr hlt
      have hr : n % 10 ^ w < 10 ^ w := Nat.mod_lt _ h10
      obtain ⟨hdig, hval⟩ := digitCh_spec hq
      have harith : (10 * acc + n / 10 ^ w) * 10 ^ w + n % 10 ^ w
          = acc * 10 ^ (w + 1) + n := by
        have hdm := Nat.div_add_mod n (10 ^ w)
        calc (10 * acc + n / 10 ^ w) * 10 ^ w + n % 10 ^ w
            = acc * (10 ^ w * 10) + (10 ^ w * (n / 10 ^ w) + n % 10 ^ w) := by ring
          _ = acc * 10 ^ (w + 1) + n := by rw [hdm, pow_succ]
      simp only [padDigits, List.cons_append, takeDigitsAux, hdig, if_true, hval]
      have hrec := ih (n % 10 ^ w) (10 * acc + n / 10 ^ w) rest hr
      rw [harith] at hrec
      simpa using hrec

lemma takeDigits_pad {w n : Nat} (rest : List Char) (hn : n < 10 ^ w) :
    takeDigits w (padDigits w n ++ rest) = some (n, rest) := by
  unfold takeDigits
  rw [takeDigitsAux_pad w n 0 rest hn]
  simp

lemma takeDigits_pad_nil {w n : Nat} (hn : n < 10 ^ w) :
    takeDigits w (padDigits w n) = some (n, []) := by
  have h := takeDigits_pad (w := w) (n := n) [] hn
  simpa using h

lemma expectCh_cons (c : Char) (rest : List Char) :
    expectCh c (c :: rest) = some rest := by
  simp [expectCh]

lemma optBindSome {α β : Type} (a : α) (f : α → Option β) : (some a >>= f) = f a := rfl

/-- A naive (timezone-free) timestamp, as produced by `datetime.utcnow()`. -/
structure DateTime where
  year : Nat
  month : Nat
  day : Nat
  hour : Nat
  minute : Nat
  second : Nat
  microsecond : Nat
  deriving DecidableEq, Repr

/-- Field bounds guaranteeing the fixed-width rendering is faithful; every
Python `datetime` satisfies them. -/
def DateTime.valid (d : DateTime) : Prop :=
  d.year < 10000 ∧ d.month < 100 ∧ d.day < 100 ∧ d.hour < 100 ∧
    d.minute < 100 ∧ d.second < 100 ∧ d.microsecond < 1000000

instance (d : DateTime) : Decidable d.valid := by
  unfold DateTime.valid; infer_instance

/-- Character-level rendering of `datetime.isoformat()`: the `.ffffff`
microsecond suffix appears exactly when the microsecond field is nonzero. -/
def isoChars (d : DateTime) : List Char :=
  padDigits 4 d.year ++ ('-' :: (padDigits 2 d.month ++ ('-' :: (padDigits 2 d.day
    ++ ('T' :: (padDigits 2 d.hour ++ (':' :: (padDigits 2 d.minute ++ (':' :: (padDigits 2 d.second
    ++ (if d.microsecond = 0 then [] else '.' :: padDigits 6 d.microsecond)))))))))))

/-- Model of `datetime.isoformat()`. -/
def isoformat (d : DateTime) : String := String.mk (isoChars d)

/-- Model of the datetime validation pydantic performs on stored records,
on the canonical forms emitted by `isoformat`. -/
def parseIsoChars (cs : List Char) : Option DateTime := do
  let (y, cs) ← takeDigits 4 cs
  let cs ← expectCh '-' cs
  let (mo, cs) ← takeDigits 2 cs
  let cs ← expectCh '-' cs
  let (dy, cs) ← takeDigits 2 cs
  let cs ← expectCh 'T' cs
  let (h, cs) ← takeDigits 2 cs
  let cs ← expectCh ':' cs
  let (mi, cs) ← takeDigits 2 cs
  let cs ← expectCh ':' cs
  let (s, cs) ← takeDigits 2 cs
  match cs with
  | [] => some ⟨y, mo, dy, h, mi, s, 0⟩
  | '.' :: rest =>
      match takeDigits 6 rest with
      | some (u, []) => some ⟨y, mo, dy, h, mi, s, u⟩
      | _ => none
  | _ => none

theorem parseIsoChars_isoChars (d : DateTime) (hd : d.valid) :
    parseIsoChars (isoChars d) = some d := by
  obtain ⟨y, mo, dy, h, mi, s, u⟩ := d
  obtain ⟨h1, h2, h3, h4, h5, h6, h7⟩ := hd
  have b1 : y < 10 ^ 4 := by norm_num; exact h1
  have b2 : mo < 10 ^ 2 := by norm_num; exact h2
  have b3 : dy < 10 ^ 2 := by norm_num; exact h3
  have b4 : h < 10 ^ 2 := by norm_num; exact h4
  have b5 : mi < 10 ^ 2 := by norm_num; exact h5
  have b6 : s < 10 ^ 2 := by norm_num; exact h6
  have b7 : u < 10 ^ 6 := by norm_num; exact h7
  by_cases hu : u = 0
  · subst hu
    simp (disch := assumption) only [parseIsoChars, isoChars, eq_self_iff_true,
      if_true, takeDigits_pad, takeDigits_pad_nil, expectCh_cons, optBindSome]
  · simp (disch := assumption) only [parseIsoChars, isoChars, if_neg hu,
      takeDigits_pad, takeDigits_pad_nil, expectCh_cons, optBindSome]

/-- String-level form of the timestamp validation. -/
def parseIsoString (s : String) : Option DateTime :=
  parseIsoChars s.data

theorem parseIsoString_isoformat (d : DateTime) (hd : d.valid) :
    parseIsoString (isoformat d) = some d := by
  show parseIsoChars (isoChars d) = some d
  exact parseIsoChars_isoChars d hd

/-! ### Data model (`ProductBrief`, requests, `ProductResponse`)

Optional string fields are `Option String`; pydantic default values such
as `tone = "balanced"` are applied when a request body is parsed and are
irrelevant to the properties below, which quantify over already-parsed
values. -/

/-- The generation input (`class ProductBrief`), field for field. -/
structure ProductBrief where
  name : String
  category : Option String
  brand : Option String
  tagline : Option String
  features : List String
  seo_keywords : List String
  tone : Option String
  audience : Option String
  language : Option String
  additional_notes : Option String
  length : Option String
  deriving DecidableEq, Repr

/-- A parsed product (`class ProductResponse`): Brief fields plus id,
description and the two timestamps. -/
structure Product extends ProductBrief where
  id : String
  description : String
  created_at : DateTime
  updated_at : DateTime
  deriving DecidableEq, Repr

/-- The stored/wire form of a product: the dict produced by
`serialize_product`, timestamps rendered as strings. -/
structure ProductRecord extends ProductBrief where
  id : String
  description : String
  created_at : String
  updated_at : String
  deriving DecidableEq, Repr

/-- Model of `serialize_product`: a field-for-field copy with the two
timestamps rendered through `isoformat`; list fields are always present
(an empty list stays an empty array, it is never omitted or null). -/
def serialize_product (p : Product) : ProductRecord :=
  { toProductBrief := p.toProductBrief
    id := p.id
    description := p.description
    created_at := isoformat p.created_at
    updated_at := isoformat p.updated_at }

/-- Model of `ProductResponse(**item)` validating a stored record: the
timestamp strings are parsed back to datetimes (on the canonical forms
emitted by `isoformat`); all other fields are taken as they are. -/
def parse_product_record (r : ProductRecord) : Option Product :=
  match parseIsoString r.created_at, parseIsoString r.updated_at with
  | some c, some u =>
      some { toProductBrief := r.toProductBrief, id := r.id, description := r.description,
             created_at := c, updated_at := u }
  | _, _ => none

/-- Create request (`class ProductCreateRequest(ProductBrief)`). -/
structure ProductCreateRequest extends ProductBrief where
  description : Option String
  auto_generate : Bool
  deriving DecidableEq, Repr

/-- Three-way state of a field in a partial-update body: omitted from the
payload, explicitly `null`, or explicitly a value. `request.dict(exclude_unset=True)`
keeps exactly the explicitly supplied fields, so the three cases are
distinguishable in `update_product`. -/
inductive Patch (α : Type) where
  | absent
  | null
  | val (a : α)
  deriving DecidableEq, Repr

/-- Update request (`class ProductUpdateRequest`), every field optional
with the absent/null/value distinction. -/
structure ProductUpdateRequest where
  name : Patch String
  category : Patch String
  brand : Patch String
  tagline : Patch String
  features : Patch (List String)
  seo_keywords : Patch (List String)
  tone : Patch String
  audience : Patch String
  language : Patch String
  additional_notes : Patch String
  length : Patch String
  description : Patch String
  regenerate_description : Patch Bool
  deriving DecidableEq, Repr

/-! ### Prompt builder (`build_generation_prompt`) -/

/-- Guidance line of the `short` length profile. -/
def shortGuidance : String :=
  "Write a tight, one-paragraph spotlight with a short features list."

/-- Guidance line of the `standard` length profile. -/
def standardGuidance : String :=
  "Craft a persuasive 2-3 paragraph description plus feature highlights."

/-- Guidance line of the `detailed` length profile. -/
def detailedGuidance : String :=
  "Deliver a richly detailed narrative with multiple paragraphs, features, and ideal shopper segments."

/-- The `length_profiles` table plus the `.get(key, default)` lookup with
the `detailed` profile as default: guidance text and max-token budget. -/
def length_profile (key : String) : String × Nat :=
  if key = "short" then (shortGuidance, 320)
  else if key = "standard" then (standardGuidance, 520)
  else if key = "detailed" then (detailedGuidance, 780)
  else (detailedGuidance, 780)

/-- Model of `build_generation_prompt`: the deterministic prompt template
and the max-token budget of the selected length profile. The profile key
is `brief.length or "detailed"`, so a missing or empty length falls back
to `detailed`, and an unrecognized key hits the `.get` default. -/
def build_generation_prompt (brief : ProductBrief) : String × Nat :=
  let profile := length_profile (pyOr brief.length "detailed")
  let features_block :=
    if brief.features.isEmpty then "- Highlight key differentiators."
    else String.intercalate "\n" (brief.features.map (fun feature => "- " ++ feature))
  let keywords :=
    if brief.seo_keywords.isEmpty then "None provided"
    else String.intercalate ", " brief.seo_keywords
  let language := pyOr brief.language "English"
  let prompt :=
    "You are an expert e-commerce copywriter crafting premium product detail page content.\n\n"
    ++ "Product name: " ++ brief.name ++ "\n"
    ++ "Category: " ++ pyOr brief.category "General" ++ "\n"
    ++ "Brand: " ++ pyOr brief.brand "Not specified" ++ "\n"
    ++ "Tagline: " ++ pyOr brief.tagline "Not specified" ++ "\n"
    ++ "Target audience: " ++ pyOr brief.audience "Online shoppers" ++ "\n"
    ++ "Tone: " ++ pyOr brief.tone "balanced" ++ "\n"
    ++ "Language: " ++ language ++ "\n\n"
    ++ "Core product features:\n" ++ features_block ++ "\n"
    ++ "SEO keywords to weave naturally: " ++ keywords ++ "\n"
    ++ "Additional creative direction: " ++ pyOr brief.additional_notes "None" ++ "\n\n"
    ++ profile.1 ++ "\n"
    ++ "Structure the copy with:\n"
    ++ "- A magnetic headline hook (1 sentence)\n"
    ++ "- Two to three compelling body paragraphs focused on benefits\n"
    ++ "- A bullet list called \"Key Features\" summarising the strongest selling points\n"
    ++ "- A section titled \"Ideal For\" describing the target customers or use cases\n"
    ++ "- A closing call-to-action sentence\n\n"
    ++ "Ensure the description is original, vivid, and conversion-focused while remaining truthful to the brief. Avoid generic filler and keep the writing in "
    ++ language ++ ".\n"
  (prompt, profile.2)

/-! ### Generation client (`get_writer_client`, `generate_product_description`) -/

/-- An HTTP-level error as raised by the service (`HTTPException`). -/
structure HTTPError where
  status_code : Nat
  detail : String
  deriving DecidableEq, Repr

/-- Outcome of the single provider chat call (`client.chat.chat(...)`):
either the completion content, or an exception whose `str(exc)` is the
given message. -/
inductive ProviderOutcome where
  | success (content : String)
  | failure (message : String)
  deriving DecidableEq, Repr

/-- Model of `get_writer_client`: if the module-level handle is already
initialized it is reused; otherwise a missing or empty `WRITER_API_KEY`
raises 503 at this first use. -/
def get_writer_client (clientReady : Bool) (apiKey : Option String) :
    Except HTTPError Unit :=
  if clientReady then .ok ()
  else
    match apiKey with
    | none => .error ⟨503, "Writer API key not configured. Set WRITER_API_KEY to enable generation."⟩
    | some k =>
        if k = "" then
          .error ⟨503, "Writer API key not configured. Set WRITER_API_KEY to enable generation."⟩
        else .ok ()

/-- The `except Exception` classification in `generate_product_description`:
case-insensitive substring checks on the exception message, in source
order (`api_key` first, then `rate limit`, else a generic 500). -/
def classify_gen_exception (message : String) : HTTPError :=
  if pyContains (pyLower message) "api_key" then
    ⟨401, "Invalid Writer API key provided."⟩
  else if pyContains (pyLower message) "rate limit" then
    ⟨429, "Writer API rate limit exceeded. Please retry shortly."⟩
  else
    ⟨500, "Error generating description: " ++ message⟩

/-- Model of `generate_product_description`: obtain the client (a 503
`HTTPException` from `get_writer_client` is re-raised unchanged), build
the prompt, make the provider call, strip the completion, and raise the
internal `RuntimeError` on a blank completion; every non-`HTTPException`
failure goes through `classify_gen_exception`. -/
def generate_product_description (clientReady : Bool) (apiKey : Option String)
    (brief : ProductBrief) (provider : ProviderOutcome) : Except HTTPError String :=
  match get_writer_client clientReady apiKey with
  | .error e => .error e
  | .ok _ =>
      let _pm := build_generation_prompt brief
      match provider with
      | .failure message => .error (classify_gen_exception message)
      | .success content =>
          let description := pyStrip content
          if description = "" then
            .error (classify_gen_exception "Received empty description from Writer API")
          else .ok description

/-! ### Product service (`create_product`, `update_product`, `delete_product`)

The external Generation Client behaviour is abstracted as an oracle
`gen : ProductBrief → Except HTTPError String`; each service function also
returns the list of briefs it passed to the oracle, so that theorems can
speak about whether and with which brief generation was invoked. -/

/-- Python truthiness of `description and description.strip()` negated:
true when the optional description is absent or blank after trimming. -/
def blankOpt (o : Option String) : Bool :=
  match o with
  | none => true
  | some d => pyStrip d == ""

/-- Model of the `create_product` endpoint body (before the store write):
the description is generated when `auto_generate` is set or the explicit
description is absent/blank, otherwise the trimmed explicit description
is used; the final value is stripped once more when the `ProductResponse`
is built. Returns the result together with the briefs sent to `gen`. -/
def create_product (req : ProductCreateRequest)
    (gen : ProductBrief → Except HTTPError String) (now : DateTime) (pid : String) :
    Except HTTPError Product × List ProductBrief :=
  let brief := req.toProductBrief
  if req.auto_generate || blankOpt req.description then
    match gen brief with
    | .error e => (.error e, [brief])
    | .ok g =>
        (.ok { toProductBrief := brief, id := pid, description := pyStrip g,
               created_at := now, updated_at := now }, [brief])
  else
    (.ok { toProductBrief := brief, id := pid,
           description := pyStrip (req.description.getD ""),
           created_at := now, updated_at := now }, [])

/-- Merge of one optional scalar Brief field in the `update_product` loop:
omitted fields are untouched, an explicit null clears fields in the
clearable set to `None`, an explicit value replaces. -/
def patchScalar (old : Option String) (p : Patch String) : Option String :=
  match p with
  | .absent => old
  | .null => none
  | .val v => some v

/-- Merge of `name`: not in the clearable set, so an explicit null is
skipped by the loop (`continue`) and leaves the old value; a value
replaces it. -/
def patchName (old : String) (p : Patch String) : String :=
  match p with
  | .val v => v
  | _ => old

/-- Merge of a sequence field: the two dedicated statements after the
loop reset an explicitly nulled sequence to `[]`; a present value
replaces the whole list; omitted is untouched. -/
def patchSeq (old : List String) (p : Patch (List String)) : List String :=
  match p with
  | .absent => old
  | .null => []
  | .val v => v

/-- The post-merge Brief-field values of `updated_payload` in
`update_product` (the loop over `update_data.items()` plus the two
sequence-reset statements). `id`, `created_at` and `updated_at` cannot
occur in a parsed `ProductUpdateRequest`, so the loop guard skipping them
is dead code here. -/
def merged_brief (existing : Product) (req : ProductUpdateRequest) : ProductBrief :=
  { name := patchName existing.name req.name
    category := patchScalar existing.category req.category
    brand := patchScalar existing.brand req.brand
    tagline := patchScalar existing.tagline req.tagline
    features := patchSeq existing.features req.features
    seo_keywords := patchSeq existing.seo_keywords req.seo_keywords
    tone := patchScalar existing.tone req.tone
    audience := patchScalar existing.audience req.audience
    language := patchScalar existing.language req.language
    additional_notes := patchScalar existing.additional_notes req.additional_notes
    length := patchScalar existing.length req.length }

/-- The popped `regenerate_description` flag: `update_data.pop(..., False)`
defaults to `False` when the field is unset, and an explicitly null flag
is falsy in `elif regenerate:`. -/
def effective_regenerate (p : Patch Bool) : Bool :=
  match p with
  | .val b => b
  | _ => false

/-- Model of the `update_product` endpoint body after `get_product_or_404`:
field-by-field merge, then description resolution in source order — an
explicitly supplied non-null description is stripped and used (generation
skipped even when regeneration was requested); otherwise regeneration, if
requested, calls `gen` once with the post-merge Brief; otherwise the
stored description is stripped and kept. Returns the result together with
the briefs sent to `gen`. -/
def update_product (existing : Product) (req : ProductUpdateRequest)
    (gen : ProductBrief → Except HTTPError String) (now : DateTime) :
    Except HTTPError Product × List ProductBrief :=
  let m := merged_brief existing req
  match req.description with
  | .val d =>
      (.ok { toProductBrief := m, id := existing.id, description := pyStrip d,
             created_at := existing.created_at, updated_at := now }, [])
  | _ =>
      if effective_regenerate req.regenerate_description then
        match gen m with
        | .error e => (.error e, [m])
        | .ok s =>
            (.ok { toProductBrief := m, id := existing.id, description := s,
                   created_at := existing.created_at, updated_at := now }, [m])
      else
        (.ok { toProductBrief := m, id := existing.id,
               description := pyStrip existing.description,
               created_at := existing.created_at, updated_at := now }, [])

/-! ### Store state and the endpoint-level operations

`products_db` is a Python dict from product id to serialized record; the
snapshot file is rewritten from it by `save_products` after every
successful mutation. Dict insertion keeps the position of an existing key
and appends a new one. -/

/-- In-memory map (as an ordered association list) plus the snapshot file
contents (the JSON array of records written by `save_products`). -/
structure StoreState where
  db : List (String × ProductRecord)
  file : List ProductRecord
  deriving DecidableEq, Repr

/-- Python dict assignment `products_db[pid] = rec`. -/
def dbInsert (db : List (String × ProductRecord)) (pid : String) (rec : ProductRecord) :
    List (String × ProductRecord) :=
  if db.any (fun kv => kv.1 == pid) then
    db.map (fun kv => if kv.1 == pid then (pid, rec) else kv)
  else db ++ [(pid, rec)]

/-- Model of `save_products`: serialize the dict values, in order, into
the snapshot file. The records in the map already carry string
timestamps (they were produced by `serialize_product` or loaded from the
file), so the `isinstance(value, datetime)` conversion is the identity. -/
def save_products (db : List (String × ProductRecord)) : List ProductRecord :=
  db.map (fun kv => kv.2)

/-- Errors surfaced by the endpoint-level operations. -/
inductive ServiceError where
  | notFound
  | validationFailed
  | http (e : HTTPError)
  deriving DecidableEq, Repr

instance {ε α : Type} [DecidableEq ε] [DecidableEq α] : DecidableEq (Except ε α) :=
  fun x y =>
    match x, y with
    | .error a, .error b =>
        if h : a = b then isTrue (by rw [h])
        else isFalse (by intro hc; injection hc; contradiction)
    | .error _, .ok _ => isFalse (fun hc => Except.noConfusion hc)
    | .ok _, .error _ => isFalse (fun hc => Except.noConfusion hc)
    | .ok a, .ok b =>
        if h : a = b then isTrue (by rw [h])
        else isFalse (by intro hc; injection hc; contradiction)

/-- The `POST /api/products` endpoint around `create_product`: on success
the serialized product is written to the map under its fresh id and the
snapshot is rewritten; on a generation error nothing is mutated (the
mutation statements come after the generation call in program order). -/
def create_op (st : StoreState) (req : ProductCreateRequest)
    (gen : ProductBrief → Except HTTPError String) (now : DateTime) (pid : String) :
    Except ServiceError Product × StoreState :=
  match create_product req gen now pid with
  | (.error e, _) => (.error (.http e), st)
  | (.ok p, _) =>
      let db := dbInsert st.db pid (serialize_product p)
      (.ok p, ⟨db, save_products db⟩)

/-- The `PUT /api/products/{id}` endpoint: 404 when the id is absent,
validation of the stored record (`ProductResponse(**product)`), then
`update_product`; only a successful update mutates the map and rewrites
the snapshot. -/
def update_op (st : StoreState) (pid : String) (req : ProductUpdateRequest)
    (gen : ProductBrief → Except HTTPError String) (now : DateTime) :
    Except ServiceError Product × StoreState :=
  match List.lookup pid st.db with
  | none => (.error .notFound, st)
  | some rec =>
      match parse_product_record rec with
      | none => (.error .validationFailed, st)
      | some existing =>
          match update_product existing req gen now with
          | (.error e, _) => (.error (.http e), st)
          | (.ok p, _) =>
              let db := dbInsert st.db pid (serialize_product p)
              (.ok p, ⟨db, save_products db⟩)

/-- The `DELETE /api/products/{id}` endpoint: 404 when the id is absent,
otherwise the entry is removed and the snapshot rewritten. -/
def delete_op (st : StoreState) (pid : String) : Except ServiceError Unit × StoreState :=
  if st.db.any (fun kv => kv.1 == pid) then
    let db := st.db.filter (fun kv => !(kv.1 == pid))
    (.ok (), ⟨db, save_products db⟩)
  else (.error .notFound, st)

/-! ### Snapshot loading (`load_products`)

`load_products` opens the snapshot as UTF-8 text, parses JSON and builds
`{item["id"]: item for item in raw if isinstance(item, dict) and item.get("id")}`
inside `try ... except (JSONDecodeError, OSError, KeyError)`. The file
states below enumerate how a real file can behave under that sequence:
in particular a file whose bytes are not valid UTF-8 makes the read raise
`UnicodeDecodeError`, which is not in the caught tuple. -/

/-- A JSON value as produced by `json.load` (non-integral numbers are not
needed by any claim and are represented by their integral part). -/
inductive PyJson where
  | null
  | bool (b : Bool)
  | num (n : Int)
  | str (s : String)
  | arr (items : List PyJson)
  | obj (fields : List (String × PyJson))
  deriving BEq, Repr

/-- Python truthiness of a JSON value (`if item.get("id")`). -/
def truthy : PyJson → Bool
  | .null => false
  | .bool b => b
  | .num n => n != 0
  | .str s => s != ""
  | .arr items => !items.isEmpty
  | .obj fields => !fields.isEmpty

/-- Whether a JSON value is hashable and hence usable as a dict key
(lists and dicts are not). -/
def hashableKey : PyJson → Bool
  | .arr _ => false
  | .obj _ => false
  | _ => true

/-- Dict access `item.get(key)`: the last occurrence wins, matching the
dict `json.load` builds from duplicate keys. -/
def objGet (fields : List (String × PyJson)) (key : String) : Option PyJson :=
  match fields.reverse.find? (fun kv => kv.1 == key) with
  | some kv => some kv.2
  | none => none

/-- Python dict insertion keyed by JSON values: an existing equal key
keeps its position and is overwritten, a new key is appended. -/
def pyDictInsert (m : List (PyJson × PyJson)) (k v : PyJson) : List (PyJson × PyJson) :=
  if m.any (fun kv => kv.1 == k) then
    m.map (fun kv => if kv.1 == k then (kv.1, v) else kv)
  else m ++ [(k, v)]

/-- Observable states of the snapshot file with respect to the operations
`load_products` performs on it. -/
inductive SnapshotFile where
  | absent
  | ioError
  | badEncoding
  | badJson
  | content (v : PyJson)

/-- Exceptions that escape `load_products` (not in its caught tuple). -/
inductive PyError where
  | unicodeDecodeError
  | typeErrorUnhashable
  deriving DecidableEq, Repr

/-- The dict comprehension of `load_products`: keep the objects whose
`id` is present and truthy, keyed by that id; a list or object id is
unhashable and raises `TypeError`. -/
def buildProductsDict : List PyJson → List (PyJson × PyJson) →
    Except PyError (List (PyJson × PyJson))
  | [], acc => .ok acc
  | item :: rest, acc =>
      match item with
      | .obj fields =>
          match objGet fields "id" with
          | some idv =>
              if truthy idv then
                if hashableKey idv then
                  buildProductsDict rest (pyDictInsert acc idv item)
                else .error .typeErrorUnhashable
              else buildProductsDict rest acc
          | none => buildProductsDict rest acc
      | _ => buildProductsDict rest acc

/-- Model of `load_products`. A missing file returns the empty map; an
`OSError` while opening/reading and a `JSONDecodeError` while parsing are
caught and yield the empty map; so does well-formed JSON that is not a
list. A file whose bytes are not valid UTF-8 raises `UnicodeDecodeError`
inside `json.load(file)` — that exception is not in the caught tuple
`(JSONDecodeError, OSError, KeyError)` and escapes. -/
def load_products : SnapshotFile → Except PyError (List (PyJson × PyJson))
  | .absent => .ok []
  | .ioError => .ok []
  | .badEncoding => .error .unicodeDecodeError
  | .badJson => .ok []
  | .content v =>
      match v with
      | .arr items => buildProductsDict items []
      | _ => .ok []

/-! ### Concrete fixtures used by witnesses and counterexamples -/

/-- A sample Brief. -/
def exBrief : ProductBrief :=
  { name := "AuroraGlow Smart Lamp", category := some "Home Lighting",
    brand := some "Aurora", tagline := none,
    features := ["Adaptive brightness"], seo_keywords := ["smart lamp"],
    tone := some "inspiring", audience := none, language := some "English",
    additional_notes := none, length := some "standard" }

/-- A sample stored product with a trimmed, non-blank description. -/
def exProduct : Product :=
  { toProductBrief := exBrief, id := "p1", description := "Bright light.",
    created_at := ⟨2026, 1, 2, 3, 4, 5, 0⟩, updated_at := ⟨2026, 1, 2, 3, 4, 5, 0⟩ }

/-- The store holding just `exProduct`, snapshot in sync. -/
def exStore : StoreState :=
  ⟨[("p1", serialize_product exProduct)],
   save_products [("p1", serialize_product exProduct)]⟩

/-- An update request with every field unset. -/
def emptyPatch : ProductUpdateRequest :=
  { name := .absent, category := .absent, brand := .absent, tagline := .absent,
    features := .absent, seo_keywords := .absent, tone := .absent, audience := .absent,
    language := .absent, additional_notes := .absent, length := .absent,
    description := .absent, regenerate_description := .absent }

/-- A generation oracle for paths that must not invoke generation. -/
def genUnused : ProductBrief → Except HTTPError String :=
  fun _ => .error ⟨500, "generation must not be reached"⟩

/-! ### Claims -/

/-- C6. The claim says `load()` never raises and returns an empty map for
an absent, unreadable or malformed snapshot. The code is at odds with its
own broad `except (JSONDecodeError, OSError, KeyError)` clause: a snapshot
file whose bytes are not valid UTF-8 makes `json.load(file)` raise
`UnicodeDecodeError`, which is not in that tuple and escapes, while the
genuinely caught states do produce the empty map. -/
theorem C6_load_raises_on_invalid_encoding :
    load_products SnapshotFile.badEncoding = Except.error PyError.unicodeDecodeError
    ∧ load_products SnapshotFile.absent = Except.ok []
    ∧ load_products SnapshotFile.ioError = Except.ok []
    ∧ load_products SnapshotFile.badJson = Except.ok []
    ∧ load_products (SnapshotFile.content (PyJson.str "not a list")) = Except.ok [] :=
  ⟨rfl, rfl, rfl, rfl, rfl⟩

/-- C7. Every provider failure is classified by case-insensitive substring
search on its message — `api_key` gives 401 (AuthError), else `rate limit`
gives 429 (RateLimitError), else 500 (ProviderError) carrying the message;
a blank completion becomes the internal empty-result failure mapped to
500 (EmptyResultError); an unset (or empty) provider credential yields 503
(ConfigurationError) at first use of the lazily-created client. -/
theorem C7_generation_error_classification
    (brief : ProductBrief) (apiKey : Option String) (message content : String)
    (provider : ProviderOutcome) :
    (pyContains (pyLower message) "api_key" = true →
      generate_product_description true apiKey brief (.failure message)
        = .error ⟨401, "Invalid Writer API key provided."⟩)
    ∧ (pyContains (pyLower message) "api_key" = false →
        pyContains (pyLower message) "rate limit" = true →
      generate_product_description true apiKey brief (.failure message)
        = .error ⟨429, "Writer API rate limit exceeded. Please retry shortly."⟩)
    ∧ (pyContains (pyLower message) "api_key" = false →
        pyContains (pyLower message) "rate limit" = false →
      generate_product_description true apiKey brief (.failure message)
        = .error ⟨500, "Error generating description: " ++ message⟩)
    ∧ (pyStrip content = "" →
      generate_product_description true apiKey brief (.success content)
        = .error ⟨500, "Error generating description: Received empty description from Writer API"⟩)
    ∧ (generate_product_description false none brief provider
        = .error ⟨503, "Writer API key not configured. Set WRITER_API_KEY to enable generation."⟩)
    ∧ (generate_product_description false (some "") brief provider
        = .error ⟨503, "Writer API key not configured. Set WRITER_API_KEY to enable generation."⟩) := by
  have hempty : classify_gen_exception "Received empty description from Writer API"
      = ⟨500, "Error generating description: Received empty description from Writer API"⟩ := by
    decide
  refine ⟨fun h1 => ?_, fun h1 h2 => ?_, fun h1 h2 => ?_, fun hc => ?_, ?_, ?_⟩
  · simp [generate_product_description, get_writer_client, classify_gen_exception, h1]
  · simp [generate_product_description, get_writer_client, classify_gen_exception, h1, h2]
  · simp [generate_product_description, get_writer_client, classify_gen_exception, h1, h2]
  · simp [generate_product_description, get_writer_client, hc, hempty]
  · simp [generate_product_description, get_writer_client]
  · simp [generate_product_description, get_writer_client]

/-- Witness for C7 at concrete messages, exercising the case-insensitive
matching and each classification branch. -/
theorem C7_witness :
    generate_product_description true (some "k") exBrief (.failure "Invalid API_KEY supplied")
      = .error ⟨401, "Invalid Writer API key provided."⟩
    ∧ generate_product_description true (some "k") exBrief (.failure "Rate Limit exceeded")
      = .error ⟨429, "Writer API rate limit exceeded. Please retry shortly."⟩
    ∧ generate_product_description true (some "k") exBrief (.failure "connection reset")
      = .error ⟨500, "Error generating description: connection reset"⟩
    ∧ generate_product_description true (some "k") exBrief (.success "   ")
      = .error ⟨500, "Error generating description: Received empty description from Writer API"⟩
    ∧ generate_product_description false none exBrief (.success "text")
      = .error ⟨503, "Writer API key not configured. Set WRITER_API_KEY to enable generation."⟩ :=
  ⟨(C7_generation_error_classification exBrief (some "k") "Invalid API_KEY supplied" ""
      (.success "text")).1 (by decide),
   (C7_generation_error_classification exBrief (some "k") "Rate Limit exceeded" ""
      (.success "text")).2.1 (by decide) (by decide),
   (C7_generation_error_classification exBrief (some "k") "connection reset" ""
      (.success "text")).2.2.1 (by decide) (by decide),
   (C7_generation_error_classification exBrief (some "k") "" "   "
      (.success "text")).2.2.2.1 (by decide),
   (C7_generation_error_classification exBrief (some "k") "" ""
      (.success "text")).2.2.2.2.1⟩

lemma length_profile_mem (key : String) :
    (length_profile key).2 = 320 ∨ (length_profile key).2 = 520 ∨
      (length_profile key).2 = 780 := by
  unfold length_profile
  by_cases h1 : key = "short" <;> by_cases h2 : key = "standard" <;>
    by_cases h3 : key = "detailed" <;> simp [h1, h2, h3]

/-- C8. The prompt builder is a pure, deterministic function of the Brief,
and its token budget is always one of 320/520/780: 320 for length
`short`, 520 for `standard`, 780 for `detailed`, with a missing or
unrecognized length falling back to `detailed` and hence 780. -/
theorem C8_prompt_builder_deterministic_tokens (b : ProductBrief) :
    ((build_generation_prompt b).2 = 320 ∨ (build_generation_prompt b).2 = 520 ∨
      (build_generation_prompt b).2 = 780)
    ∧ (b.length = some "short" → (build_generation_prompt b).2 = 320)
    ∧ (b.length = some "standard" → (build_generation_prompt b).2 = 520)
    ∧ (b.length = some "detailed" → (build_generation_prompt b).2 = 780)
    ∧ (b.length = none → (build_generation_prompt b).2 = 780)
    ∧ (∀ s, b.length = some s → s ≠ "short" → s ≠ "standard" → s ≠ "detailed" →
        (build_generation_prompt b).2 = 780)
    ∧ (∀ b2 : ProductBrief, b = b2 →
        build_generation_prompt b = build_generation_prompt b2) := by
  have hsnd : (build_generation_prompt b).2
      = (length_profile (pyOr b.length "detailed")).2 := by
    simp only [build_generation_prompt]
  refine ⟨?_, fun h => ?_, fun h => ?_, fun h => ?_, fun h => ?_,
    fun s h h1 h2 h3 => ?_, fun b2 he => by rw [he]⟩
  · rw [hsnd]; exact length_profile_mem _
  · rw [hsnd, h]; decide
  · rw [hsnd, h]; decide
  · rw [hsnd, h]; decide
  · rw [hsnd, h]; decide
  · rw [hsnd, h]
    by_cases hs : s = ""
    · simp [pyOr, hs]; decide
    · simp only [pyOr, if_neg hs]
      unfold length_profile
      rw [if_neg h1, if_neg h2, if_neg h3]

/-- Witness for C8 at concrete lengths: `short` selects 320 tokens and an
unrecognized length falls back to 780. -/
theorem C8_witness :
    (build_generation_prompt { exBrief with length := some "short" }).2 = 320
    ∧ (build_generation_prompt { exBrief with length := some "fancy" }).2 = 780 :=
  ⟨(C8_prompt_builder_deterministic_tokens { exBrief with length := some "short" }).2.1 rfl,
   (C8_prompt_builder_deterministic_tokens { exBrief with length := some "fancy" }).2.2.2.2.2.1
     "fancy" rfl (by decide) (by decide) (by decide)⟩

/-- C9. Serialization is lossless: a product round-trips through its
stored/wire record, the timestamps passing through their ISO-8601 string
form; empty list fields stay (empty) arrays in the record, never omitted
or null; and on records in the image of `serialize_product`,
deserializing then serializing is the identity as well. -/
theorem C9_serialization_round_trip (p : Product)
    (hc : p.created_at.valid) (hu : p.updated_at.valid) :
    parse_product_record (serialize_product p) = some p
    ∧ (serialize_product p).features = p.features
    ∧ (serialize_product p).seo_keywords = p.seo_keywords
    ∧ Option.map serialize_product (parse_product_record (serialize_product p))
        = some (serialize_product p) := by
  have h1 : parseIsoString (isoformat p.created_at) = some p.created_at :=
    parseIsoString_isoformat _ hc
  have h2 : parseIsoString (isoformat p.updated_at) = some p.updated_at :=
    parseIsoString_isoformat _ hu
  have hparse : parse_product_record (serialize_product p) = some p := by
    simp [parse_product_record, serialize_product, h1, h2]
  exact ⟨hparse, rfl, rfl, by rw [hparse]; rfl⟩

/-- A product with empty feature/keyword lists and a microsecond-bearing
creation timestamp, for the round-trip witness. -/
def exProductEmptyLists : Product :=
  { name := "Nimbus Air Purifier", category := none, brand := none, tagline := none,
    features := [], seo_keywords := [], tone := some "reassuring", audience := none,
    language := none, additional_notes := none, length := some "detailed",
    id := "p2", description := "Quiet clean air.",
    created_at := ⟨2026, 10, 12, 8, 30, 59, 123456⟩,
    updated_at := ⟨2026, 10, 12, 9, 0, 0, 0⟩ }

/-- Witness for C9 on a concrete product with empty list fields. -/
theorem C9_witness :
    parse_product_record (serialize_product exProductEmptyLists) = some exProductEmptyLists
    ∧ (serialize_product exProductEmptyLists).features = ([] : List String) :=
  ⟨(C9_serialization_round_trip exProductEmptyLists (by decide) (by decide)).1,
   (C9_serialization_round_trip exProductEmptyLists (by decide) (by decide)).2.1⟩

/-- C10. A failing operation mutates nothing: whenever `create_op` or
`update_op` returns an error — in particular whenever the Generation
Client call fails, the only error source once the product exists — the
in-memory map and the snapshot file are left exactly as they were,
because the store mutation and snapshot rewrite come after the
generation call in program order. -/
theorem C10_generation_failure_atomic
    (st : StoreState) (creq : ProductCreateRequest) (ureq : ProductUpdateRequest)
    (gen : ProductBrief → Except HTTPError String) (now : DateTime) (pid : String)
    (e : ServiceError) :
    ((create_op st creq gen now pid).1 = .error e → (create_op st creq gen now pid).2 = st)
    ∧ ((update_op st pid ureq gen now).1 = .error e → (update_op st pid ureq gen now).2 = st) := by
  constructor
  · intro h
    unfold create_op at h ⊢
    split at h
    · simp_all
    · simp_all
  · intro h
    unfold update_op at h ⊢
    split at h
    · simp_all
    · split at h
      · simp_all
      · split at h
        · simp_all
        · simp_all

/-- A generation oracle that always fails with a rate-limit error. -/
def genFail : ProductBrief → Except HTTPError String :=
  fun _ => .error ⟨429, "Writer API rate limit exceeded. Please retry shortly."⟩

/-- A create request with `auto_generate` left at its default. -/
def exCreateReq : ProductCreateRequest :=
  { toProductBrief := exBrief, description := none, auto_generate := true }

/-- An update request asking only for regeneration. -/
def regenPatch : ProductUpdateRequest :=
  { emptyPatch with regenerate_description := .val true }

/-- A create request with `auto_generate` off and an untrimmed explicit
description. -/
def manualCreateReq : ProductCreateRequest :=
  { toProductBrief := exBrief, description := some " Bright light. ", auto_generate := false }

/-- A create request with `auto_generate` off and no explicit description. -/
def noDescrCreateReq : ProductCreateRequest :=
  { toProductBrief := exBrief, description := none, auto_generate := false }

/-- Witness for C10: a failing generation call leaves the concrete store
untouched on both create and update. -/
theorem C10_witness :
    (create_op exStore exCreateReq genFail ⟨2026, 1, 2, 3, 4, 5, 0⟩ "p1").2 = exStore
    ∧ (update_op exStore "p1" regenPatch genFail ⟨2026, 1, 2, 3, 4, 5, 0⟩).2 = exStore :=
  ⟨(C10_generation_failure_atomic exStore exCreateReq regenPatch genFail
      ⟨2026, 1, 2, 3, 4, 5, 0⟩ "p1"
      (.http ⟨429, "Writer API rate limit exceeded. Please retry shortly."⟩)).1 (by decide),
   (C10_generation_failure_atomic exStore exCreateReq regenPatch genFail
      ⟨2026, 1, 2, 3, 4, 5, 0⟩ "p1"
      (.http ⟨429, "Writer API rate limit exceeded. Please retry shortly."⟩)).2 (by decide)⟩

/-- C4. Create calls the Generation Client exactly when `auto_generate`
is true (even with an explicit non-blank description supplied) or the
explicit description is absent or blank after trimming; with
`auto_generate` false and a non-blank description it never calls the
client and stores the trimmed explicit description. -/
theorem C4_create_generation_decision (req : ProductCreateRequest)
    (gen : ProductBrief → Except HTTPError String) (now : DateTime) (pid : String) :
    (req.auto_generate = true →
      (create_product req gen now pid).2 = [req.toProductBrief])
    ∧ (req.auto_generate = false → ∀ d, req.description = some d → pyStrip d ≠ "" →
      (create_product req gen now pid).2 = []
      ∧ Except.map Product.description (create_product req gen now pid).1
          = .ok (pyStrip d))
    ∧ (req.auto_generate = false → (∀ d, req.description = some d → pyStrip d = "") →
      (create_product req gen now pid).2 = [req.toProductBrief]) := by
  refine ⟨fun ha => ?_, fun ha d hd hne => ?_, fun ha hb => ?_⟩
  · unfold create_product
    rw [ha]
    simp only [Bool.true_or]
    split
    · split <;> rfl
    · simp_all
  · unfold create_product
    rw [ha, hd]
    have hblank : blankOpt (some d) = false := by
      simp [blankOpt, hne]
    rw [hblank]
    simp [Except.map]
  · unfold create_product
    rw [ha]
    have hblank : blankOpt req.description = true := by
      cases hd : req.description with
      | none => rfl
      | some d => simp [blankOpt, hb d hd]
    rw [hblank]
    simp only [Bool.false_or]
    split
    · split <;> rfl
    · simp_all

/-- Witness for C4 on concrete create requests: generation forced by
`auto_generate`, skipped for an explicit non-blank description, forced
again for an absent description. -/
theorem C4_witness :
    (create_product { exCreateReq with description := some "Nice lamp." }
        genFail ⟨2026, 1, 2, 3, 4, 5, 0⟩ "p3").2 = [exBrief]
    ∧ (create_product manualCreateReq genUnused ⟨2026, 1, 2, 3, 4, 5, 0⟩ "p3").2 = []
    ∧ Except.map Product.description
        (create_product manualCreateReq genUnused ⟨2026, 1, 2, 3, 4, 5, 0⟩ "p3").1
        = .ok (pyStrip " Bright light. ")
    ∧ (create_product noDescrCreateReq genFail ⟨2026, 1, 2, 3, 4, 5, 0⟩ "p3").2 = [exBrief] :=
  ⟨(C4_create_generation_decision _ genFail _ _).1 rfl,
   ((C4_create_generation_decision manualCreateReq genUnused _ _).2.1 rfl " Bright light. " rfl
      (by decide)).1,
   ((C4_create_generation_decision manualCreateReq genUnused _ _).2.1 rfl " Bright light. " rfl
      (by decide)).2,
   (C4_create_generation_decision noDescrCreateReq genFail _ _).2.2 rfl (fun d hd => nomatch hd)⟩

/-- C2 (amended). Description resolution on update, in source order: an
explicitly supplied non-null description is used trimmed and the
Generation Client is never invoked, even when `regenerate_description`
is true; otherwise, if `regenerate_description` is true, the client is
invoked exactly once with the Brief built from the post-merge field
values and its result becomes the description verbatim; otherwise the
client is not invoked and the description becomes the stored description
trimmed of surrounding whitespace — identical to the stored value
whenever that value is already trimmed, as is every description the
service itself persists. -/
theorem C2_update_description_resolution (existing : Product)
    (req : ProductUpdateRequest) (gen : ProductBrief → Except HTTPError String)
    (now : DateTime) :
    (∀ d, req.description = .val d →
      (update_product existing req gen now).2 = []
      ∧ Except.map Product.description (update_product existing req gen now).1
          = .ok (pyStrip d))
    ∧ ((req.description = .absent ∨ req.description = .null) →
        effective_regenerate req.regenerate_description = true →
      (update_product existing req gen now).2 = [merged_brief existing req]
      ∧ (∀ s, gen (merged_brief existing req) = .ok s →
          Except.map Product.description (update_product existing req gen now).1 = .ok s)
      ∧ (∀ e, gen (merged_brief existing req) = .error e →
          (update_product existing req gen now).1 = .error e))
    ∧ ((req.description = .absent ∨ req.description = .null) →
        effective_regenerate req.regenerate_description = false →
      (update_product existing req gen now).2 = []
      ∧ Except.map Product.description (update_product existing req gen now).1
          = .ok (pyStrip existing.description)) := by
  refine ⟨fun d hd => ?_, fun hd hr => ?_, fun hd hr => ?_⟩
  · unfold update_product
    rw [hd]
    simp [Except.map]
  · unfold update_product
    rcases hd with h | h <;> rw [h] <;>
      exact ⟨by cases hg : gen (merged_brief existing req) <;> simp [hr, hg],
             fun s hs => by simp [hr, hs, Except.map],
             fun e he => by simp [hr, he]⟩
  · unfold update_product
    rcases hd with h | h <;> rw [h] <;> simp [hr, Except.map]

/-- The stored record of a product whose description carries surrounding
whitespace — exactly what a snapshot file edited outside the service can
contain, and `load`/`ProductResponse` validation accept it. -/
def untrimmedRecord : ProductRecord :=
  { toProductBrief := exBrief, id := "p1", description := " x ",
    created_at := "2026-01-02T03:04:05", updated_at := "2026-01-02T03:04:05" }

/-- A store holding the untrimmed record, snapshot in sync. -/
def untrimmedStore : StoreState :=
  ⟨[("p1", untrimmedRecord)], [untrimmedRecord]⟩

/-- Counterexample to C2 as stated: updating the stored product whose
description is `" x "` with an empty partial (no description, no
regeneration) yields the description `"x"`, not the stored description
kept unchanged — the third resolution branch re-trims. -/
theorem C2_counterexample :
    Except.map Product.description
      (update_op untrimmedStore "p1" emptyPatch genUnused ⟨2026, 1, 2, 3, 5, 0, 0⟩).1
      = .ok "x"
    ∧ untrimmedRecord.description = " x "
    ∧ ("x" : String) ≠ " x " :=
  ⟨by decide, rfl, by decide⟩

/-- Witness for C2 on concrete updates: an explicit description wins with
no generation call, and a regeneration-only update calls the client
exactly once with the post-merge Brief. -/
theorem C2_witness :
    (update_product exProduct { emptyPatch with description := .val " New desc " }
        genUnused ⟨2026, 1, 2, 3, 6, 0, 0⟩).2 = []
    ∧ Except.map Product.description
        (update_product exProduct { emptyPatch with description := .val " New desc " }
          genUnused ⟨2026, 1, 2, 3, 6, 0, 0⟩).1 = .ok (pyStrip " New desc ")
    ∧ (update_product exProduct regenPatch genFail ⟨2026, 1, 2, 3, 6, 0, 0⟩).2
        = [merged_brief exProduct regenPatch] :=
  ⟨((C2_update_description_resolution exProduct
      { emptyPatch with description := .val " New desc " } genUnused
      ⟨2026, 1, 2, 3, 6, 0, 0⟩).1 " New desc " rfl).1,
   ((C2_update_description_resolution exProduct
      { emptyPatch with description := .val " New desc " } genUnused
      ⟨2026, 1, 2, 3, 6, 0, 0⟩).1 " New desc " rfl).2,
   ((C2_update_description_resolution exProduct regenPatch genFail
      ⟨2026, 1, 2, 3, 6, 0, 0⟩).2.1 (Or.inl rfl) rfl).1⟩

/-- C3. The update merge is field-by-field on the successful result: an
omitted Brief field keeps its stored value; an optional scalar field
explicitly set to null is cleared to absent; a sequence field set to null
is reset to the empty sequence and a present non-null sequence replaces
the stored one entirely; a field set to a non-null value takes that value
(`name` keeps its stored value on an explicit null, see C5). -/
theorem C3_update_merge_semantics (existing : Product) (req : ProductUpdateRequest)
    (gen : ProductBrief → Except HTTPError String) (now : DateTime) (p : Product)
    (h : (update_product existing req gen now).1 = .ok p) :
    p.name = (match req.name with
      | .val v => v
      | _ => existing.name)
    ∧ p.category = (match req.category with
      | .absent => existing.category
      | .null => none
      | .val v => some v)
    ∧ p.brand = (match req.brand with
      | .absent => existing.brand
      | .null => none
      | .val v => some v)
    ∧ p.tagline = (match req.tagline with
      | .absent => existing.tagline
      | .null => none
      | .val v => some v)
    ∧ p.tone = (match req.tone with
      | .absent => existing.tone
      | .null => none
      | .val v => some v)
    ∧ p.audience = (match req.audience with
      | .absent => existing.audience
      | .null => none
      | .val v => some v)
    ∧ p.language = (match req.language with
      | .absent => existing.language
      | .null => none
      | .val v => some v)
    ∧ p.additional_notes = (match req.additional_notes with
      | .absent => existing.additional_notes
      | .null => none
      | .val v => some v)
    ∧ p.length = (match req.length with
      | .absent => existing.length
      | .null => none
      | .val v => some v)
    ∧ p.features = (match req.features with
      | .absent => existing.features
      | .null => []
      | .val v => v)
    ∧ p.seo_keywords = (match req.seo_keywords with
      | .absent => existing.seo_keywords
      | .null => []
      | .val v => v) := by
  have hb : p.toProductBrief = merged_brief existing req := by
    simp only [update_product] at h
    split at h
    · rw [← Except.ok.inj h]
    · split at h
      · split at h
        · simp at h
        · rw [← Except.ok.inj h]
      · rw [← Except.ok.inj h]
  refine ⟨?_, ?_, ?_, ?_, ?_, ?_, ?_, ?_, ?_, ?_, ?_⟩
  · show p.toProductBrief.name = _
    rw [hb]; show patchName existing.name req.name = _
    cases req.name <;> rfl
  · show p.toProductBrief.category = _
    rw [hb]; show patchScalar existing.category req.category = _
    cases req.category <;> rfl
  · show p.toProductBrief.brand = _
    rw [hb]; show patchScalar existing.brand req.brand = _
    cases req.brand <;> rfl
  · show p.toProductBrief.tagline = _
    rw [hb]; show patchScalar existing.tagline req.tagline = _
    cases req.tagline <;> rfl
  · show p.toProductBrief.tone = _
    rw [hb]; show patchScalar existing.tone req.tone = _
    cases req.tone <;> rfl
  · show p.toProductBrief.audience = _
    rw [hb]; show patchScalar existing.audience req.audience = _
    cases req.audience <;> rfl
  · show p.toProductBrief.language = _
    rw [hb]; show patchScalar existing.language req.language = _
    cases req.language <;> rfl
  · show p.toProductBrief.additional_notes = _
    rw [hb]; show patchScalar existing.additional_notes req.additional_notes = _
    cases req.additional_notes <;> rfl
  · show p.toProductBrief.length = _
    rw [hb]; show patchScalar existing.length req.length = _
    cases req.length <;> rfl
  · show p.toProductBrief.features = _
    rw [hb]; show patchSeq existing.features req.features = _
    cases req.features <;> rfl
  · show p.toProductBrief.seo_keywords = _
    rw [hb]; show patchSeq existing.seo_keywords req.seo_keywords = _
    cases req.seo_keywords <;> rfl

/-- An update request mixing the three field states: nulled scalars, a
replaced scalar, a nulled sequence, a replaced sequence, omitted rest. -/
def mixPatch : ProductUpdateRequest :=
  { emptyPatch with
    name := .null
    category := .null
    brand := .val "Lumina"
    features := .null
    seo_keywords := .val ["x", "y"]
    language := .null }

/-- The product `update_product exProduct mixPatch` yields. -/
def pMix : Product :=
  { name := "AuroraGlow Smart Lamp", category := none, brand := some "Lumina",
    tagline := none, features := [], seo_keywords := ["x", "y"],
    tone := some "inspiring", audience := none, language := none,
    additional_notes := none, length := some "standard",
    id := "p1", description := "Bright light.",
    created_at := ⟨2026, 1, 2, 3, 4, 5, 0⟩, updated_at := ⟨2026, 1, 2, 4, 0, 0, 0⟩ }

/-- Witness for C3 on a concrete mixed update. -/
theorem C3_witness :
    pMix.name = exProduct.name
    ∧ pMix.category = none
    ∧ pMix.brand = some "Lumina"
    ∧ pMix.features = ([] : List String)
    ∧ pMix.seo_keywords = ["x", "y"]
    ∧ pMix.tone = exProduct.tone :=
  ⟨(C3_update_merge_semantics exProduct mixPatch genUnused ⟨2026, 1, 2, 4, 0, 0, 0⟩
      pMix (by decide)).1,
   (C3_update_merge_semantics exProduct mixPatch genUnused ⟨2026, 1, 2, 4, 0, 0, 0⟩
      pMix (by decide)).2.1,
   (C3_update_merge_semantics exProduct mixPatch genUnused ⟨2026, 1, 2, 4, 0, 0, 0⟩
      pMix (by decide)).2.2.1,
   (C3_update_merge_semantics exProduct mixPatch genUnused ⟨2026, 1, 2, 4, 0, 0, 0⟩
      pMix (by decide)).2.2.2.2.2.2.2.2.2.1,
   (C3_update_merge_semantics exProduct mixPatch genUnused ⟨2026, 1, 2, 4, 0, 0, 0⟩
      pMix (by decide)).2.2.2.2.2.2.2.2.2.2,
   (C3_update_merge_semantics exProduct mixPatch genUnused ⟨2026, 1, 2, 4, 0, 0, 0⟩
      pMix (by decide)).2.2.2.2.1⟩

/-- C1. The claim says no operation ever persists an empty or
whitespace-only description. Update is missing the guard create has: an
update whose partial explicitly supplies the whitespace-only description
`"   "` succeeds and persists the empty description `""` to both the
in-memory map and the snapshot file — contradicting the stated invariant
(and the non-blank intent that create does enforce by regenerating). -/
theorem C1_blank_description_persisted :
    Except.map Product.description
      (update_op exStore "p1" { emptyPatch with description := .val "   " }
        genUnused ⟨2026, 1, 2, 3, 5, 0, 0⟩).1 = .ok ""
    ∧ Option.map ProductRecord.description
        (List.lookup "p1"
          (update_op exStore "p1" { emptyPatch with description := .val "   " }
            genUnused ⟨2026, 1, 2, 3, 5, 0, 0⟩).2.db) = some ""
    ∧ (update_op exStore "p1" { emptyPatch with description := .val "   " }
        genUnused ⟨2026, 1, 2, 3, 5, 0, 0⟩).2.file.map ProductRecord.description = [""] :=
  ⟨by decide, by decide, by decide⟩

/-- C5. The claim says an explicit empty-string name is rejected with
`InvalidRequest` and the stored name stays non-empty. The code has no
such check: the update succeeds and the empty name is stored in the map
(first two conjuncts). The null-name half of the claim does hold: an
explicitly null name leaves the stored name untouched (third conjunct). -/
theorem C5_empty_name_accepted :
    Except.map (fun q : Product => q.name)
      (update_op exStore "p1" { emptyPatch with name := .val "" }
        genUnused ⟨2026, 1, 2, 3, 5, 0, 0⟩).1 = .ok ""
    ∧ Option.map (fun r : ProductRecord => r.name)
        (List.lookup "p1"
          (update_op exStore "p1" { emptyPatch with name := .val "" }
            genUnused ⟨2026, 1, 2, 3, 5, 0, 0⟩).2.db) = some ""
    ∧ Except.map (fun q : Product => q.name)
        (update_op exStore "p1" { emptyPatch with name := .null }
          genUnused ⟨2026, 1, 2, 3, 5, 0, 0⟩).1 = .ok "AuroraGlow Smart Lamp" :=
  ⟨by decide, by decide, by decide⟩

end ProductPlatform
